import Mathlib

/-!
Verification of the Red Sky Ops experiment API client
(`pkg/api/redsky/v1alpha1/api.go`) against its specification.

The Go code is shallowly embedded: every operation is modelled from the
point where the HTTP response has been received (transport failures are
returned as-is by the code before any of the logic modelled here runs).
`encoding/json` is external to the repository, so the effect of a
`json.Unmarshal(body, &x)` call is passed in as an `Unmarshal` record
holding the final state of the target and the returned error.
-/

namespace RedskyV1alpha1

/-! ## Go string primitives used by the client (strings / strconv) -/

/-- `strings.Trim(s, cutset)`: remove all leading and trailing characters
contained in `cutset`. -/
def goTrim (s cutset : String) : String :=
  let cut := cutset.toList
  ⟨((s.toList.dropWhile (cut.contains ·)).reverse.dropWhile (cut.contains ·)).reverse⟩

/-- `strings.ToLower` restricted to ASCII (the Go function is Unicode-aware
but coincides with this on the ASCII header tokens handled by the client). -/
def goToLower (s : String) : String :=
  ⟨s.toList.map Char.toLower⟩

/-- Split a character list at every occurrence of `sep`, keeping empty
pieces (the behaviour of Go `strings.Split` for a one-character
separator). -/
def splitOnChar (sep : Char) : List Char → List (List Char)
  | [] => [[]]
  | x :: xs =>
    if x = sep then [] :: splitOnChar sep xs
    else
      match splitOnChar sep xs with
      | [] => [[x]]
      | y :: ys => (x :: y) :: ys

/-- `strings.Split(s, sep)` for the one-character separators used by the
client (`","`, `";"`). -/
def goSplit (s : String) (sep : Char) : List String :=
  (splitOnChar sep s.toList).map (⟨·⟩)

/-- Break a character list at the first occurrence of `sep`; `none` when
`sep` does not occur. -/
def breakAtChar (sep : Char) : List Char → List Char × Option (List Char)
  | [] => ([], none)
  | x :: xs =>
    if x = sep then ([], some xs)
    else
      let r := breakAtChar sep xs
      (x :: r.1, r.2)

/-- `strings.SplitN(s, "=", 2)`: split at the first `=` only; the second
piece keeps any later `=` characters. -/
def goSplitN2Eq (s : String) : List String :=
  match breakAtChar '=' s.toList with
  | (_, none) => [s]
  | (a, some b) => [⟨a⟩, ⟨b⟩]

/-- `strconv.Atoi`: optional sign, then decimal digits; empty input, any
non-digit character, or a value outside the 64-bit int range is an error
(`none`). -/
def goAtoi (s : String) : Option Int :=
  let cs := s.toList
  let signed : Int × List Char :=
    match cs with
    | '+' :: t => (1, t)
    | '-' :: t => (-1, t)
    | t => (1, t)
  if signed.2 = [] then none
  else if signed.2.all Char.isDigit then
    let n : Nat := signed.2.foldl (fun a c => a * 10 + (c.toNat - 48)) 0
    let v : Int := signed.1 * n
    if v < -(2 ^ 63) ∨ v > 2 ^ 63 - 1 then none else some v
  else none

/-- `time.Second` expressed in nanoseconds, the unit of `time.Duration`. -/
def timeSecond : Int := 1000000000

/-- Two's-complement wraparound to the int64 range: `time.Duration` is an
int64 count of nanoseconds, and Go integer multiplication wraps on
overflow. -/
def int64Wrap (n : Int) : Int :=
  (n + 2 ^ 63) % 2 ^ 64 - 2 ^ 63

/-! ## HTTP response model -/

/-- `http.Header`: canonical-form keys, each with its ordered value slice. -/
structure Header where
  entries : List (String × List String)
deriving DecidableEq

/-- All values stored under a key (Go `header[key]`). -/
def Header.values (h : Header) (k : String) : List String :=
  match h.entries.find? (fun e => e.1 = k) with
  | some e => e.2
  | none => []

/-- `http.Header.Get`: first value for the key, `""` when absent. -/
def Header.get (h : Header) (k : String) : String :=
  (h.values k).headD ""

/-- The part of an `*http.Response` the client inspects, together with the
raw response body returned by `api.Client.Do`. -/
structure Response where
  statusCode : Nat
  header : Header
  body : String := ""
deriving DecidableEq

/-- The observable effect of a `json.Unmarshal(body, &x)` call on the
JSON-visible fields of `x`: the final state of those fields and the
returned error (fields tagged `json:"-"` are never touched). -/
structure Unmarshal (α : Type) where
  value : α
  err : Option String := none

/-! ## Error model (`Error`, `unexpected`) -/

/-- `ErrorType` is a string in the Go source. -/
abbrev ErrorType := String

def ErrExperimentNameInvalid : ErrorType := "experiment-name-invalid"
def ErrExperimentNameConflict : ErrorType := "experiment-name-conflict"
def ErrExperimentInvalid : ErrorType := "experiment-invalid"
def ErrExperimentNotFound : ErrorType := "experiment-not-found"
def ErrExperimentStopped : ErrorType := "experiment-stopped"
def ErrTrialInvalid : ErrorType := "trial-invalid"
def ErrTrialUnavailable : ErrorType := "trial-unavailable"
def ErrTrialNotFound : ErrorType := "trial-not-found"

/-- A Go `error` value produced by the client:
`apiErr t ra` is `&Error{Type: t, RetryAfter: ra}` (`ra` in nanoseconds),
`unauthorized` is `fmt.Errorf("unauthorized")`,
`unexpectedResponse c` is `fmt.Errorf("unexpected server response: %d", c)`,
and `jsonErr m` is an error returned by `json.Unmarshal`. -/
inductive GoError where
  | apiErr (type : ErrorType) (retryAfter : Int)
  | unauthorized
  | unexpectedResponse (code : Nat)
  | jsonErr (msg : String)
deriving DecidableEq

/-- The `Error()` string of each error value (`(*Error).Error` prints the
type; the other two are the `fmt.Errorf` messages). -/
def GoError.message : GoError → String
  | .apiErr t _ => t
  | .unauthorized => "unauthorized"
  | .unexpectedResponse c => "unexpected server response: " ++ toString c
  | .jsonErr m => m

/-- `unexpected(resp)`: the single classification point for statuses not
handled by an operation's own switch. -/
def unexpected (statusCode : Nat) : GoError :=
  if statusCode = 401 then .unauthorized
  else .unexpectedResponse statusCode

/-! ## Resource model -/

structure Optimization where
  experimentBudget : Int := 0
  parallelTrials : Int := 0
  burnIn : Int := 0
deriving DecidableEq

structure Metric where
  name : String
  minimize : Bool := false
deriving DecidableEq

/-- `ParameterType` is a string in the Go source. -/
abbrev ParameterType := String

def ParameterTypeInteger : ParameterType := "int"
def ParameterTypeDouble : ParameterType := "double"

/-- `json.Number` fields carry the decimal literal text. -/
structure Bounds where
  min : String
  max : String
deriving DecidableEq

structure Parameter where
  name : String
  type : ParameterType
  bounds : Bounds
deriving DecidableEq

/-- `ExperimentMeta`: every field is tagged `json:"-"`, populated only from
response headers. -/
structure ExperimentMeta where
  self : String := ""
  trials : String := ""
  nextTrial : String := ""
deriving DecidableEq

structure Experiment where
  experimentMeta : ExperimentMeta := {}
  displayName : String := ""
  optimization : Optimization := {}
  metrics : List Metric := []
  parameters : List Parameter := []
deriving DecidableEq

structure ExperimentItem where
  experiment : Experiment := {}
  itemRef : String := ""
deriving DecidableEq

/-- `ExperimentListMeta`: fields tagged `json:"-"`, populated from headers. -/
structure ExperimentListMeta where
  next : String := ""
  prev : String := ""
deriving DecidableEq

structure ExperimentList where
  experimentListMeta : ExperimentListMeta := {}
  experiments : List ExperimentItem := []
deriving DecidableEq

structure ExperimentListQuery where
  offset : Int := 0
  limit : Int := 0
deriving DecidableEq

/-- `TrialMeta`: `ReportTrial` is tagged `json:"-"`, populated from the
`Location` header. -/
structure TrialMeta where
  reportTrial : String := ""
deriving DecidableEq

structure Assignment where
  parameterName : String
  value : String
deriving DecidableEq

structure TrialAssignments where
  trialMeta : TrialMeta := {}
  assignments : List Assignment := []
deriving DecidableEq

/-- Metric observation values are genuine float64 payloads; the client never
computes with them, so they are carried opaquely. -/
structure Value where
  metricName : String
  value : Float
  error : Float := 0.0

structure TrialValues where
  values : List Value := []
  failed : Bool := false

abbrev TrialStatus := String

structure TrialItem where
  trialAssignments : TrialAssignments := {}
  trialValues : TrialValues := {}
  status : TrialStatus := ""
  labels : List (String × String) := []

structure TrialList where
  trials : List TrialItem := []

/-! ## Link relations and metadata sinks (`Meta` implementations) -/

def relationSelf : String := "self"
def relationNext : String := "next"
def relationPrev : String := "prev"
def relationPrevious : String := "previous"
def relationTrials : String := "https://carbonrelay.com/rel/trials"
def relationNextTrial : String := "https://carbonrelay.com/rel/nextTrial"

/-- `(*ExperimentMeta).SetLink`. -/
def ExperimentMeta.setLink (m : ExperimentMeta) (rel link : String) : ExperimentMeta :=
  if rel = relationSelf then { m with self := link }
  else if rel = relationTrials then { m with trials := link }
  else if rel = relationNextTrial then { m with nextTrial := link }
  else m

/-- `(*ExperimentMeta).SetLocation` is a no-op. -/
def ExperimentMeta.setLocation (m : ExperimentMeta) (_ : String) : ExperimentMeta := m

/-- `(*ExperimentListMeta).SetLink`. -/
def ExperimentListMeta.setLink (m : ExperimentListMeta) (rel link : String) :
    ExperimentListMeta :=
  if rel = relationNext then { m with next := link }
  else if rel = relationPrev ∨ rel = relationPrevious then { m with prev := link }
  else m

/-- `(*ExperimentListMeta).SetLocation` is a no-op. -/
def ExperimentListMeta.setLocation (m : ExperimentListMeta) (_ : String) :
    ExperimentListMeta := m

/-- `(*TrialMeta).SetLink` ignores every link relation. -/
def TrialMeta.setLink (m : TrialMeta) (_ _ : String) : TrialMeta := m

/-- `(*TrialMeta).SetLocation` stores the location as the report-trial link. -/
def TrialMeta.setLocation (m : TrialMeta) (location : String) : TrialMeta :=
  { m with reportTrial := location }

/-! ## `metaUnmarshal`: header parsing -/

/-- One pass of the innermost loop of `metaUnmarshal` over a single
semicolon-separated segment `l₀` of a link entry; the accumulator is the
`(link, rel)` pair of local variables. -/
def parseLinkParam (acc : String × String) (l₀ : String) : String × String :=
  let l := goTrim l₀ " "
  if l = "" then acc
  else if l.toList.head? = some '<' ∧ l.toList.getLast? = some '>' then
    (goTrim l "<>", acc.2)
  else
    match goSplitN2Eq l with
    | [k, v] => if goToLower k = "rel" then (acc.1, goTrim v "\"") else acc
    | _ => acc

/-- Parse one comma-separated link entry into its final `(link, rel)` pair;
`SetLink(rel, link)` is then invoked with exactly this pair, well formed or
not. -/
def parseLinkEntry (h : String) : String × String :=
  (goSplit h ';').foldl parseLinkParam ("", "")

/-- All `(link, rel)` pairs delivered to `SetLink` for the (possibly
repeated) `Link` header values, one pair per comma-separated entry, each
entry parsed independently of the others. -/
def linkPairs (vals : List String) : List (String × String) :=
  vals.flatMap (fun rh => (goSplit rh ',').map parseLinkEntry)

/-- `metaUnmarshal(header, meta)` generically over a sink: set the location
when the `Location` header is non-empty, then deliver every parsed link
pair. (`Last-Modified` is also read, but every sink in this file ignores
it, so it does not appear in the sink interface here.) -/
def runMetaUnmarshal {M : Type}
    (setLocation : M → String → M) (setLink : M → String → String → M)
    (h : Header) (m : M) : M :=
  let loc := h.get "Location"
  let m := if loc ≠ "" then setLocation m loc else m
  (linkPairs (h.values "Link")).foldl (fun m p => setLink m p.2 p.1) m

def metaUnmarshalExperiment (h : Header) (m : ExperimentMeta) : ExperimentMeta :=
  runMetaUnmarshal ExperimentMeta.setLocation ExperimentMeta.setLink h m

def metaUnmarshalList (h : Header) (m : ExperimentListMeta) : ExperimentListMeta :=
  runMetaUnmarshal ExperimentListMeta.setLocation ExperimentListMeta.setLink h m

def metaUnmarshalTrial (h : Header) (m : TrialMeta) : TrialMeta :=
  runMetaUnmarshal TrialMeta.setLocation TrialMeta.setLink h m

/-! ## Operations of `httpAPI`

Each operation is a pure function of the received response (plus, where the
code unmarshals the response body, the `Unmarshal` outcome for that body);
each returns the pair of Go return values, the error being `none` for
success. -/

/-- The JSON-visible fields of an `ExperimentList` body
(`experiments` — the meta fields are `json:"-"`). -/
abbrev ExperimentListBody := List ExperimentItem

/-- `(*httpAPI).GetAllExperimentsByPage`, from response receipt: on 200 the
pagination links are extracted and the body decoded, the decode error being
discarded in favour of `nil`; any other status is funnelled to
`unexpected`. -/
def getAllExperimentsByPage (resp : Response) (d : Unmarshal ExperimentListBody) :
    ExperimentList × Option GoError :=
  if resp.statusCode = 200 then
    ({ experimentListMeta := metaUnmarshalList resp.header {},
       experiments := d.value }, none)
  else
    ({}, some (unexpected resp.statusCode))

/-- The JSON-visible fields of an `Experiment` body (the embedded
`ExperimentMeta` fields are all `json:"-"`). -/
structure ExperimentBody where
  displayName : String := ""
  optimization : Optimization := {}
  metrics : List Metric := []
  parameters : List Parameter := []
deriving DecidableEq

/-- Assemble an `Experiment` from header-derived metadata and decoded body
fields. -/
def Experiment.ofParts (meta : ExperimentMeta) (b : ExperimentBody) : Experiment :=
  { experimentMeta := meta, displayName := b.displayName,
    optimization := b.optimization, metrics := b.metrics,
    parameters := b.parameters }

/-- The JSON-visible fields of `exp` as they round-trip through
`json.Marshal` / `json.Unmarshal` (identity on these field types). -/
def Experiment.body (e : Experiment) : ExperimentBody :=
  { displayName := e.displayName, optimization := e.optimization,
    metrics := e.metrics, parameters := e.parameters }

/-- `(*httpAPI).GetExperiment`, from response receipt: on 200 metadata is
extracted and the body decoded, the decode error being returned; 404 maps
to experiment-not-found; the rest is funnelled to `unexpected`. -/
def getExperiment (resp : Response) (d : Unmarshal ExperimentBody) :
    Experiment × Option GoError :=
  if resp.statusCode = 200 then
    (Experiment.ofParts (metaUnmarshalExperiment resp.header {}) d.value,
     d.err.map .jsonErr)
  else if resp.statusCode = 404 then
    ({}, some (.apiErr ErrExperimentNotFound 0))
  else
    ({}, some (unexpected resp.statusCode))

/-- `(*httpAPI).CreateExperiment`, from response receipt. On 200 and on 201
the code runs `metaUnmarshal(resp.Header, &e.ExperimentMeta)` and then
`json.Unmarshal(body, &e)` where `body` is still the locally marshalled
request (`resp, _, err := h.client.Do(req)` discards the response body), so
the returned entity carries the request's own fields; the unmarshal error
is discarded. 400, 409 and 422 map to their experiment errors; the rest is
funnelled to `unexpected`. -/
def createExperiment (exp : Experiment) (resp : Response) :
    Experiment × Option GoError :=
  if resp.statusCode = 200 then
    (Experiment.ofParts (metaUnmarshalExperiment resp.header {}) exp.body, none)
  else if resp.statusCode = 201 then
    (Experiment.ofParts (metaUnmarshalExperiment resp.header {}) exp.body, none)
  else if resp.statusCode = 400 then
    ({}, some (.apiErr ErrExperimentNameInvalid 0))
  else if resp.statusCode = 409 then
    ({}, some (.apiErr ErrExperimentNameConflict 0))
  else if resp.statusCode = 422 then
    ({}, some (.apiErr ErrExperimentInvalid 0))
  else
    ({}, some (unexpected resp.statusCode))

/-- `(*httpAPI).DeleteExperiment`, from response receipt. -/
def deleteExperiment (resp : Response) : Option GoError :=
  if resp.statusCode = 204 then none
  else if resp.statusCode = 404 then some (.apiErr ErrExperimentNotFound 0)
  else some (unexpected resp.statusCode)

/-- The JSON-visible field of a `TrialList` body. -/
abbrev TrialListBody := List TrialItem

/-- `(*httpAPI).GetAllTrials`, from response receipt: on 200 the body is
decoded and the decode error discarded in favour of `nil`. -/
def getAllTrials (resp : Response) (d : Unmarshal TrialListBody) :
    TrialList × Option GoError :=
  if resp.statusCode = 200 then
    ({ trials := d.value }, none)
  else
    ({}, some (unexpected resp.statusCode))

/-- `(*httpAPI).CreateTrial`, from response receipt. -/
def createTrial (resp : Response) : String × Option GoError :=
  if resp.statusCode = 201 then
    (resp.header.get "Location", none)
  else if resp.statusCode = 422 then
    ("", some (.apiErr ErrTrialInvalid 0))
  else
    ("", some (unexpected resp.statusCode))

/-- The JSON-visible field of a `TrialAssignments` body (`assignments` —
the embedded `TrialMeta` is `json:"-"`). -/
abbrev TrialAssignmentsBody := List Assignment

/-- `(*httpAPI).NextTrial`, from response receipt: 200 extracts the
`Location` header into the report-trial link then decodes the body,
returning the decode error; 410 is experiment-stopped; 503 is
trial-unavailable carrying `time.Duration(ra) * time.Second` — an int64
multiplication that wraps on overflow — where `ra` is the `Retry-After`
header (5 when `Atoi` fails); the rest is funnelled to `unexpected`. -/
def nextTrial (resp : Response) (d : Unmarshal TrialAssignmentsBody) :
    TrialAssignments × Option GoError :=
  if resp.statusCode = 200 then
    ({ trialMeta := metaUnmarshalTrial resp.header {}, assignments := d.value },
     d.err.map .jsonErr)
  else if resp.statusCode = 410 then
    ({}, some (.apiErr ErrExperimentStopped 0))
  else if resp.statusCode = 503 then
    let ra : Int := (goAtoi (resp.header.get "Retry-After")).getD 5
    ({}, some (.apiErr ErrTrialUnavailable (int64Wrap (ra * timeSecond))))
  else
    ({}, some (unexpected resp.statusCode))

/-- The `vls.Values = nil` clearing performed by `(*httpAPI).ReportTrial`
on its local copy before `json.Marshal(vls)`: the struct that reaches the
wire. -/
def reportTrialWire (vls : TrialValues) : TrialValues :=
  if vls.failed then { vls with values := [] } else vls

/-- `(*httpAPI).ReportTrial`, from response receipt. -/
def reportTrial (resp : Response) : Option GoError :=
  if resp.statusCode = 201 then none
  else if resp.statusCode = 404 then some (.apiErr ErrTrialNotFound 0)
  else if resp.statusCode = 422 then some (.apiErr ErrTrialInvalid 0)
  else some (unexpected resp.statusCode)

/-! ## `ExperimentListQuery.Encode` -/

/-- The key/value pairs written by `url.Values.Encode` for an
`ExperimentListQuery` pointer (which may be nil), in `Encode`'s sorted key
order (`"limit" < "offset"`); a field is set only when the pointer is
non-nil and the field is non-zero. `strconv.Itoa` output needs no percent
escaping. -/
def ExperimentListQuery.encodePairs (p : Option ExperimentListQuery) :
    List (String × String) :=
  (match p with
   | some q => if q.limit ≠ 0 then [("limit", toString q.limit)] else []
   | none => []) ++
  (match p with
   | some q => if q.offset ≠ 0 then [("offset", toString q.offset)] else []
   | none => [])

/-- `(*ExperimentListQuery).Encode`. -/
def ExperimentListQuery.encode (p : Option ExperimentListQuery) : String :=
  "&".intercalate ((ExperimentListQuery.encodePairs p).map
    (fun kv => kv.1 ++ "=" ++ kv.2))

/-! ## Call-by-value frame model for `ReportTrial`

`ReportTrial` takes its `TrialValues` argument by value; the `Values` slice
inside the copy still aliases the caller's backing array, so mutation of
the caller's data could only happen through a write into that array. The
model makes the aliasing explicit: slices are identifiers into a heap of
backing arrays, and the function below performs every store the Go function
performs — there is none into the heap, and `vls.Values = nil` rebinds only
the callee's own field. -/

abbrev SliceHeap := List (List Value)

/-- A Go slice value: `none` is the nil slice, `some i` references backing
array `i`. -/
structure ValuesSlice where
  id : Option Nat
deriving DecidableEq

structure TrialValuesRef where
  values : ValuesSlice := ⟨none⟩
  failed : Bool := false
deriving DecidableEq

/-- Read a slice's elements from the heap. -/
def ValuesSlice.deref (h : SliceHeap) (s : ValuesSlice) : List Value :=
  match s.id with
  | none => []
  | some i => h.getD i []

/-- The call `h.ReportTrial(ctx, u, caller)` up to the marshal step:
returns the heap after the call, the caller's variable after the call, and
the callee's local `vls` at the point `json.Marshal(vls)` reads it. -/
def reportTrialCall (h : SliceHeap) (caller : TrialValuesRef) :
    SliceHeap × TrialValuesRef × TrialValuesRef :=
  let vls := caller
  let vls := if vls.failed then { vls with values := ⟨none⟩ } else vls
  (h, caller, vls)

/-! ## Claim theorems -/

/-- C1 (counterexample): the dispense outcome is NOT determined solely by
the response status: a 200 response whose body fails to decode makes
`NextTrial` return the decode error instead of success. -/
theorem c1_counterexample :
    (nextTrial ⟨200, ⟨[("Location", ["/t/1"])]⟩, ""⟩
        ⟨[], some "invalid JSON"⟩).2 = some (.jsonErr "invalid JSON") ∧
    (nextTrial ⟨200, ⟨[("Location", ["/t/1"])]⟩, ""⟩
        ⟨[], some "invalid JSON"⟩).2 ≠ none := by
  decide

/-- C1 (amended): a 200 dispense response extracts the `Location` header
into the report-trial link and decodes the body into `TrialAssignments`,
returning success exactly when the decode succeeds and the decode error
otherwise; a 410 response returns the terminal experiment-stopped error
with no assignments; any status other than 200, 410 and 503 returns the
generic unexpected-response error. -/
theorem c1_nextTrial_status_dispatch (resp : Response)
    (d : Unmarshal TrialAssignmentsBody) :
    (resp.statusCode = 200 →
      nextTrial resp d =
        ({ trialMeta := metaUnmarshalTrial resp.header {},
           assignments := d.value }, d.err.map .jsonErr)) ∧
    (resp.statusCode = 410 →
      nextTrial resp d = ({}, some (.apiErr ErrExperimentStopped 0))) ∧
    (resp.statusCode ≠ 200 ∧ resp.statusCode ≠ 410 ∧ resp.statusCode ≠ 503 →
      nextTrial resp d = ({}, some (unexpected resp.statusCode))) := by
  refine ⟨fun h => ?_, fun h => ?_, fun h => ?_⟩
  · simp [nextTrial, h]
  · simp [nextTrial, h]
  · simp [nextTrial, h.1, h.2.1, h.2.2]

/-- C1 (witness): the three branches at concrete responses. -/
theorem c1_witness :
    nextTrial ⟨200, ⟨[("Location", ["/t/9"])]⟩, ""⟩ ⟨[⟨"p", "1"⟩], none⟩
      = ({ trialMeta := ⟨"/t/9"⟩, assignments := [⟨"p", "1"⟩] }, none) ∧
    nextTrial ⟨410, ⟨[]⟩, ""⟩ ⟨[], none⟩
      = ({}, some (.apiErr ErrExperimentStopped 0)) ∧
    nextTrial ⟨418, ⟨[]⟩, ""⟩ ⟨[], none⟩
      = ({}, some (unexpected 418)) :=
  ⟨((c1_nextTrial_status_dispatch ⟨200, ⟨[("Location", ["/t/9"])]⟩, ""⟩
      ⟨[⟨"p", "1"⟩], none⟩).1 rfl).trans (by decide),
   (c1_nextTrial_status_dispatch ⟨410, ⟨[]⟩, ""⟩ ⟨[], none⟩).2.1 rfl,
   (c1_nextTrial_status_dispatch ⟨418, ⟨[]⟩, ""⟩ ⟨[], none⟩).2.2 (by decide)⟩

/-- C2 (counterexample): the retry-after duration is NOT always the
parsed header value in seconds: `Retry-After: 9223372037` parses
successfully, but `time.Duration(9223372037) * time.Second` overflows
int64 and wraps to a negative duration instead of 9223372037 seconds. -/
theorem c2_counterexample :
    goAtoi "9223372037" = some 9223372037 ∧
    (nextTrial ⟨503, ⟨[("Retry-After", ["9223372037"])]⟩, ""⟩ ⟨[], none⟩).2
      = some (.apiErr ErrTrialUnavailable (-9223372036709551616)) ∧
    (-9223372036709551616 : Int) ≠ 9223372037 * timeSecond ∧
    (-9223372036709551616 : Int) < 0 := by
  decide

/-- C2 (amended): a 503 dispense response yields the trial-unavailable
error whose retry-after duration is `time.Duration(n) * time.Second`
computed with int64 wraparound for the header value `n` parsed as an
integer — hence exactly `n` seconds whenever `n * 10^9` nanoseconds fits
in int64 (e.g., `Retry-After: 30` yields exactly 30 seconds) — and
exactly 5 seconds when the header is absent or not parseable as an
integer; no assignments content is produced. -/
theorem c2_nextTrial_retry_after (resp : Response)
    (d : Unmarshal TrialAssignmentsBody) (h : resp.statusCode = 503) :
    (nextTrial resp d).1 = {} ∧
    (∀ n : Int, goAtoi (resp.header.get "Retry-After") = some n →
      (nextTrial resp d).2 =
        some (.apiErr ErrTrialUnavailable (int64Wrap (n * timeSecond)))) ∧
    (∀ n : Int, goAtoi (resp.header.get "Retry-After") = some n →
      -(2 ^ 63) ≤ n * timeSecond → n * timeSecond ≤ 2 ^ 63 - 1 →
      (nextTrial resp d).2 =
        some (.apiErr ErrTrialUnavailable (n * timeSecond))) ∧
    (goAtoi (resp.header.get "Retry-After") = none →
      (nextTrial resp d).2 =
        some (.apiErr ErrTrialUnavailable (5 * timeSecond))) := by
  refine ⟨?_, fun n hn => ?_, fun n hn hlo hhi => ?_, fun hn => ?_⟩
  · simp [nextTrial, h]
  · simp [nextTrial, h, hn]
  · have hw : int64Wrap (n * timeSecond) = n * timeSecond := by
      simp only [int64Wrap]
      omega
    simp [nextTrial, h, hn, hw]
  · simp [nextTrial, h, hn, int64Wrap, timeSecond]

/-- C2 (witness): `Retry-After: 30` gives 30 seconds; an absent header and
a non-numeric header give 5 seconds; no assignments are produced. -/
theorem c2_witness :
    (nextTrial ⟨503, ⟨[("Retry-After", ["30"])]⟩, ""⟩ ⟨[], none⟩).2
      = some (.apiErr ErrTrialUnavailable (30 * timeSecond)) ∧
    (nextTrial ⟨503, ⟨[]⟩, ""⟩ ⟨[], none⟩).2
      = some (.apiErr ErrTrialUnavailable (5 * timeSecond)) ∧
    (nextTrial ⟨503, ⟨[("Retry-After", ["soon"])]⟩, ""⟩ ⟨[], none⟩).2
      = some (.apiErr ErrTrialUnavailable (5 * timeSecond)) ∧
    (nextTrial ⟨503, ⟨[("Retry-After", ["30"])]⟩, ""⟩ ⟨[], none⟩).1 = {} :=
  ⟨(c2_nextTrial_retry_after ⟨503, ⟨[("Retry-After", ["30"])]⟩, ""⟩
      ⟨[], none⟩ rfl).2.2.1 30 (by decide) (by decide) (by decide),
   (c2_nextTrial_retry_after ⟨503, ⟨[]⟩, ""⟩ ⟨[], none⟩ rfl).2.2.2 (by decide),
   (c2_nextTrial_retry_after ⟨503, ⟨[("Retry-After", ["soon"])]⟩, ""⟩
      ⟨[], none⟩ rfl).2.2.2 (by decide),
   (c2_nextTrial_retry_after ⟨503, ⟨[("Retry-After", ["30"])]⟩, ""⟩
      ⟨[], none⟩ rfl).1⟩

/-- C3: whenever the `TrialValues` argument has `failed` set, the struct
serialized into the request body carries an empty value list, regardless
of the caller-supplied values. -/
theorem c3_reportTrial_failed_clears_values (vls : TrialValues)
    (h : vls.failed = true) : (reportTrialWire vls).values = [] := by
  simp [reportTrialWire, h]

/-- C3 (witness): a failed report with a non-empty supplied value list
still puts an empty value list on the wire. -/
theorem c3_witness :
    (reportTrialWire { values := [⟨"throughput", 42.5, 0.25⟩], failed := true }).values
      = [] :=
  c3_reportTrial_failed_clears_values
    { values := [⟨"throughput", 42.5, 0.25⟩], failed := true } rfl

/-- C4 (code bug): on 200 and on 201 `CreateExperiment` behaves
identically, but the entity it returns is rebuilt from the locally
marshalled request (`resp, _, err := h.client.Do(req)` throws the server's
response body away), not decoded from the server's response: the result is
independent of the response body, and a 201 response carrying a different
server entity still yields the request's own fields. -/
theorem c4_createExperiment_ignores_response_body :
    (∀ (exp : Experiment) (hdr : Header) (b b' : String),
      createExperiment exp ⟨200, hdr, b⟩ = createExperiment exp ⟨201, hdr, b'⟩) ∧
    (∀ (exp : Experiment) (hdr : Header) (b : String),
      createExperiment exp ⟨201, hdr, b⟩ =
        (Experiment.ofParts (metaUnmarshalExperiment hdr {}) exp.body, none)) ∧
    createExperiment { displayName := "client-display-name" }
        ⟨201, ⟨[]⟩, "server-entity-with-a-different-display-name"⟩
      = ({ displayName := "client-display-name" }, none) := by
  refine ⟨fun exp hdr b b' => ?_, fun exp hdr b => ?_, by decide⟩
  · simp [createExperiment]
  · simp [createExperiment]

/-- C5: report outcomes are decided by status alone: 201 is success, 404
is trial-not-found, 422 is trial-invalid, anything else is the
unexpected-response error. -/
theorem c5_reportTrial_status_dispatch (resp : Response) :
    (resp.statusCode = 201 → reportTrial resp = none) ∧
    (resp.statusCode = 404 →
      reportTrial resp = some (.apiErr ErrTrialNotFound 0)) ∧
    (resp.statusCode = 422 →
      reportTrial resp = some (.apiErr ErrTrialInvalid 0)) ∧
    (resp.statusCode ≠ 201 ∧ resp.statusCode ≠ 404 ∧ resp.statusCode ≠ 422 →
      reportTrial resp = some (unexpected resp.statusCode)) := by
  refine ⟨fun h => ?_, fun h => ?_, fun h => ?_, fun h => ?_⟩
  · simp [reportTrial, h]
  · simp [reportTrial, h]
  · simp [reportTrial, h]
  · simp [reportTrial, h.1, h.2.1, h.2.2]

/-- C5 (witness): all four report outcomes at concrete statuses. -/
theorem c5_witness :
    reportTrial ⟨201, ⟨[]⟩, ""⟩ = none ∧
    reportTrial ⟨404, ⟨[]⟩, ""⟩ = some (.apiErr ErrTrialNotFound 0) ∧
    reportTrial ⟨422, ⟨[]⟩, ""⟩ = some (.apiErr ErrTrialInvalid 0) ∧
    reportTrial ⟨500, ⟨[]⟩, ""⟩ = some (unexpected 500) :=
  ⟨(c5_reportTrial_status_dispatch ⟨201, ⟨[]⟩, ""⟩).1 rfl,
   (c5_reportTrial_status_dispatch ⟨404, ⟨[]⟩, ""⟩).2.1 rfl,
   (c5_reportTrial_status_dispatch ⟨422, ⟨[]⟩, ""⟩).2.2.1 rfl,
   (c5_reportTrial_status_dispatch ⟨500, ⟨[]⟩, ""⟩).2.2.2 (by decide)⟩

/-- C6 (counterexample): an entry that has a `rel` parameter but no
`<...>` URI is not dropped: `SetLink` is still invoked with an empty URI,
which overwrites the link set by a well-formed earlier entry in the same
header, so removing the malformed entry changes the result. -/
theorem c6_counterexample :
    (metaUnmarshalList ⟨[("Link", ["</x>; rel=\"next\", rel=\"next\""])]⟩ {}).next
      = "" ∧
    (metaUnmarshalList ⟨[("Link", ["</x>; rel=\"next\""])]⟩ {}).next = "/x" ∧
    metaUnmarshalList ⟨[("Link", ["</x>; rel=\"next\", rel=\"next\""])]⟩ {}
      ≠ metaUnmarshalList ⟨[("Link", ["</x>; rel=\"next\""])]⟩ {} := by
  decide

/-- C6 (amended): each comma-separated entry of each `Link` header value is
parsed independently and its accumulated `(rel, uri)` pair is delivered to
the sink: a well-formed entry delivers its relation (matched
case-insensitively, quotes stripped) and its `<>`-delimited URI; an entry
with no `rel` parameter delivers an empty relation, which every sink in
this file ignores, so it is dropped without error and without affecting
other entries; an entry with a `rel` parameter but no `<...>` URI delivers
its relation with an empty URI (which can overwrite an earlier link); for
the header value `</x>; rel="next", </y>; rel="prev"` both relations are
recovered with their correct URIs. -/
theorem c6_link_parsing :
    (∀ vals : List String,
      linkPairs vals =
        vals.flatMap (fun rh => (goSplit rh ',').map parseLinkEntry)) ∧
    parseLinkEntry "</x>; rel=\"next\"" = ("/x", "next") ∧
    parseLinkEntry " </y>; rel=\"prev\"" = ("/y", "prev") ∧
    parseLinkEntry "</x>; REL=next" = ("/x", "next") ∧
    metaUnmarshalList ⟨[("Link", ["</x>; rel=\"next\", </y>; rel=\"prev\""])]⟩ {}
      = { next := "/x", prev := "/y" } ∧
    parseLinkEntry "</z>; foo=\"bar\"" = ("/z", "") ∧
    (∀ (m : ExperimentMeta) (link : String), m.setLink "" link = m) ∧
    (∀ (m : ExperimentListMeta) (link : String), m.setLink "" link = m) ∧
    (∀ (m : TrialMeta) (rel link : String), m.setLink rel link = m) ∧
    metaUnmarshalList ⟨[("Link", ["</x>; rel=\"next\", </z>; foo=\"bar\""])]⟩ {}
      = { next := "/x", prev := "" } ∧
    parseLinkEntry " rel=\"next\"" = ("", "next") := by
  refine ⟨fun vals => rfl, by decide, by decide, by decide, by decide, by decide,
    fun m link => ?_, fun m link => ?_, fun m rel link => rfl, by decide, by decide⟩
  · simp [ExperimentMeta.setLink, relationSelf, relationTrials, relationNextTrial]
  · simp [ExperimentListMeta.setLink, relationNext, relationPrev, relationPrevious]

/-- C7: every status outside an operation's own switch funnels through the
single classifier `unexpected`, which maps 401 to the distinct
unauthorized error and every other status to the generic
unexpected-response error carrying that numeric status. -/
theorem c7_unexpected_classification :
    unexpected 401 = .unauthorized ∧
    (∀ c : Nat, c ≠ 401 → unexpected c = .unexpectedResponse c) ∧
    (∀ c : Nat, GoError.unexpectedResponse c ≠ .unauthorized) ∧
    (∀ (resp : Response) (d : Unmarshal ExperimentListBody),
      resp.statusCode ≠ 200 →
        (getAllExperimentsByPage resp d).2 = some (unexpected resp.statusCode)) ∧
    (∀ (resp : Response) (d : Unmarshal ExperimentBody),
      resp.statusCode ≠ 200 → resp.statusCode ≠ 404 →
        (getExperiment resp d).2 = some (unexpected resp.statusCode)) ∧
    (∀ (exp : Experiment) (resp : Response),
      resp.statusCode ≠ 200 → resp.statusCode ≠ 201 → resp.statusCode ≠ 400 →
      resp.statusCode ≠ 409 → resp.statusCode ≠ 422 →
        (createExperiment exp resp).2 = some (unexpected resp.statusCode)) ∧
    (∀ resp : Response, resp.statusCode ≠ 204 → resp.statusCode ≠ 404 →
        deleteExperiment resp = some (unexpected resp.statusCode)) ∧
    (∀ (resp : Response) (d : Unmarshal TrialListBody),
      resp.statusCode ≠ 200 →
        (getAllTrials resp d).2 = some (unexpected resp.statusCode)) ∧
    (∀ resp : Response, resp.statusCode ≠ 201 → resp.statusCode ≠ 422 →
        (createTrial resp).2 = some (unexpected resp.statusCode)) ∧
    (∀ (resp : Response) (d : Unmarshal TrialAssignmentsBody),
      resp.statusCode ≠ 200 → resp.statusCode ≠ 410 → resp.statusCode ≠ 503 →
        (nextTrial resp d).2 = some (unexpected resp.statusCode)) ∧
    (∀ resp : Response,
      resp.statusCode ≠ 201 → resp.statusCode ≠ 404 → resp.statusCode ≠ 422 →
        reportTrial resp = some (unexpected resp.statusCode)) := by
  refine ⟨rfl, fun c hc => ?_, fun c => by simp, ?_, ?_, ?_, ?_, ?_, ?_, ?_, ?_⟩
  · simp [unexpected, hc]
  · intro resp d h; simp [getAllExperimentsByPage, h]
  · intro resp d h1 h2; simp [getExperiment, h1, h2]
  · intro exp resp h1 h2 h3 h4 h5; simp [createExperiment, h1, h2, h3, h4, h5]
  · intro resp h1 h2; simp [deleteExperiment, h1, h2]
  · intro resp d h; simp [getAllTrials, h]
  · intro resp h1 h2; simp [createTrial, h1, h2]
  · intro resp d h1 h2 h3; simp [nextTrial, h1, h2, h3]
  · intro resp h1 h2 h3; simp [reportTrial, h1, h2, h3]

/-- C7 (witness): unhandled statuses at concrete inputs: 401 becomes the
unauthorized error, 500 the unexpected-response error carrying 500. -/
theorem c7_witness :
    unexpected 500 = .unexpectedResponse 500 ∧
    (getAllTrials ⟨500, ⟨[]⟩, ""⟩ ⟨[], none⟩).2 = some (unexpected 500) ∧
    (nextTrial ⟨401, ⟨[]⟩, ""⟩ ⟨[], none⟩).2 = some (unexpected 401) ∧
    deleteExperiment ⟨502, ⟨[]⟩, ""⟩ = some (unexpected 502) :=
  ⟨c7_unexpected_classification.2.1 500 (by decide),
   c7_unexpected_classification.2.2.2.2.2.2.2.1 ⟨500, ⟨[]⟩, ""⟩ ⟨[], none⟩
     (by decide),
   c7_unexpected_classification.2.2.2.2.2.2.2.2.2.1 ⟨401, ⟨[]⟩, ""⟩ ⟨[], none⟩
     (by decide) (by decide) (by decide),
   c7_unexpected_classification.2.2.2.2.2.2.1 ⟨502, ⟨[]⟩, ""⟩
     (by decide) (by decide)⟩

/-- C8: `offset` and `limit` each appear in the encoded query exactly when
non-zero; `limit=10, offset=0` encodes to the string `"limit=10"`, which
contains `limit=10` and no `offset` at all. -/
theorem c8_encode_omits_zero_fields :
    (∀ q : ExperimentListQuery,
      ("offset" ∈ (ExperimentListQuery.encodePairs (some q)).map Prod.fst ↔
        q.offset ≠ 0) ∧
      ("limit" ∈ (ExperimentListQuery.encodePairs (some q)).map Prod.fst ↔
        q.limit ≠ 0)) ∧
    ExperimentListQuery.encode (some { offset := 0, limit := 10 }) = "limit=10" := by
  refine ⟨fun q => ?_, by decide⟩
  by_cases ho : q.offset = 0 <;> by_cases hl : q.limit = 0 <;>
    simp [ExperimentListQuery.encodePairs, ho, hl]

/-- C9: a 200 list response never surfaces a decode error: both
`GetAllExperimentsByPage` and `GetAllTrials` discard the `json.Unmarshal`
error and return the decoded (possibly zero-valued) list with a nil
error. -/
theorem c9_list_decode_errors_discarded (resp : Response)
    (d : Unmarshal ExperimentListBody) (d' : Unmarshal TrialListBody)
    (h : resp.statusCode = 200) :
    (getAllExperimentsByPage resp d).2 = none ∧
    (getAllExperimentsByPage resp d).1.experiments = d.value ∧
    (getAllTrials resp d').2 = none ∧
    (getAllTrials resp d').1.trials = d'.value := by
  refine ⟨?_, ?_, ?_, ?_⟩ <;> simp [getAllExperimentsByPage, getAllTrials, h]

/-- C9 (witness): a 200 response whose body is not valid JSON (the
unmarshal call reports an error and leaves the zero value) still returns
success. -/
theorem c9_witness :
    (getAllExperimentsByPage ⟨200, ⟨[]⟩, "not json"⟩
      ⟨[], some "invalid character"⟩).2 = none ∧
    (getAllTrials ⟨200, ⟨[]⟩, "not json"⟩ ⟨[], some "invalid character"⟩).2
      = none :=
  ⟨(c9_list_decode_errors_discarded ⟨200, ⟨[]⟩, "not json"⟩
      ⟨[], some "invalid character"⟩ ⟨[], some "invalid character"⟩ rfl).1,
   (c9_list_decode_errors_discarded ⟨200, ⟨[]⟩, "not json"⟩
      ⟨[], some "invalid character"⟩ ⟨[], some "invalid character"⟩ rfl).2.2.1⟩

/-- C10: `ReportTrial` never mutates the caller's `TrialValues`: the heap
of slice backing arrays is untouched, the caller's variable (including its
`Values` slice reference) is unchanged after the call, and the clearing on
failure happens only on the callee's local copy. -/
theorem c10_reportTrial_no_caller_mutation (h : SliceHeap)
    (caller : TrialValuesRef) :
    (reportTrialCall h caller).1 = h ∧
    (reportTrialCall h caller).2.1 = caller ∧
    ValuesSlice.deref (reportTrialCall h caller).1 caller.values =
      ValuesSlice.deref h caller.values ∧
    (caller.failed = true →
      (reportTrialCall h caller).2.2.values = ⟨none⟩) := by
  refine ⟨rfl, rfl, rfl, fun hf => ?_⟩
  simp [reportTrialCall, hf]

/-- C10 (witness): a failed report whose caller holds a non-empty backing
array leaves heap and caller intact while the local copy is cleared. -/
theorem c10_witness :
    (reportTrialCall [[⟨"latency", 9.5, 0.0⟩]] ⟨⟨some 0⟩, true⟩).1
      = [[⟨"latency", 9.5, 0.0⟩]] ∧
    (reportTrialCall [[⟨"latency", 9.5, 0.0⟩]] ⟨⟨some 0⟩, true⟩).2.1
      = ⟨⟨some 0⟩, true⟩ ∧
    (reportTrialCall [[⟨"latency", 9.5, 0.0⟩]] ⟨⟨some 0⟩, true⟩).2.2.values
      = ⟨none⟩ :=
  ⟨(c10_reportTrial_no_caller_mutation [[⟨"latency", 9.5, 0.0⟩]]
      ⟨⟨some 0⟩, true⟩).1,
   (c10_reportTrial_no_caller_mutation [[⟨"latency", 9.5, 0.0⟩]]
      ⟨⟨some 0⟩, true⟩).2.1,
   (c10_reportTrial_no_caller_mutation [[⟨"latency", 9.5, 0.0⟩]]
      ⟨⟨some 0⟩, true⟩).2.2.2 rfl⟩

end RedskyV1alpha1
